import Mathlib

/-!
Shallow embedding of the spatial cross-filtering and selection
synchronization engine of the TAZReview dashboard (source files
`my_app.py` and `viztaz_app.py`), together with proofs that settle the
frozen claims about its specification.

The geometry collections are modelled as lists of records; shapely and
geopandas operations that the engine merely delegates to (the
`intersects` predicate, `unary_union`, centroid buffering) are treated
as external collaborators and appear as parameters of the state
transformers.  Python list indexing that can raise `IndexError` is
modelled with `Option`, `none` standing for a raised exception.
-/

namespace TAZReview

/-- Attribute value of a geometry record cell: a numeric value, a null
(Python `None`), or a non-numeric (text) value.  The aggregation code
tests cells with `isinstance(val, (int, float))`. -/
inductive AttrVal where
  | num (q : ℚ)
  | null
  | txt (s : String)
deriving DecidableEq

/-- Identifier field value: the source collections store identifiers as
integers or strings (`taz_id`, `BLOCK_ID`). -/
inductive IdVal where
  | iint (n : Int)
  | istr (s : String)
deriving DecidableEq

/-- Python `str()` applied to an identifier field value; integers render
in their decimal form. -/
def IdVal.toStr : IdVal → String
  | .iint n => toString n
  | .istr s => s

/-- A polygon ring: the exterior coordinate sequence of one single
polygon, as produced by `subpoly.exterior.coords`. -/
abbrev Ring := List (ℚ × ℚ)

/-- Geometry of one record: shapely `None`, a single `Polygon`, or a
`MultiPolygon` made of a list of constituent parts. -/
inductive Geom where
  | gnone
  | poly (ring : Ring)
  | multi (parts : List Ring)
deriving DecidableEq

/-- Model of the Python guard `geom is None or geom.is_empty`. -/
def Geom.isEmptyG : Geom → Bool
  | .gnone => true
  | .poly r => r.isEmpty
  | .multi ps => ps.isEmpty

/-- One row of a geometry collection (a GeoDataFrame row): the
identifier field, the geometry, and the attribute columns. -/
structure GeometryRecord where
  rid : IdVal
  geom : Geom
  attrs : List (String × AttrVal)
deriving DecidableEq

/-- Reading `row[c]` after the `ensure_cols` loop has added every
missing requested column with value `None`. -/
def getAttr (r : GeometryRecord) (c : String) : AttrVal :=
  (r.attrs.lookup c).getD .null

/-- One row of the ColumnDataSource produced by decomposition: one
sub-polygon ring, the parent identifier in string form, and a copy of
the requested attribute columns of the parent record. -/
structure SubPoly where
  ring : Ring
  pid : String
  attrs : List (String × AttrVal)
deriving DecidableEq

/-- The CDS row emitted for one constituent ring of a record: the `id`
cell is `str(row[id_field])` and the attribute cells are copied from
the parent row. -/
def mkSub (cols : List String) (r : GeometryRecord) (ring : Ring) : SubPoly :=
  ⟨ring, r.rid.toStr, cols.map (fun c => (c, getAttr r c))⟩

/-- Rows contributed by one record in the splitting loop: a record with
`None` or empty geometry is skipped, a `Polygon` contributes one row,
and a `MultiPolygon` contributes one row per part. -/
def splitRecord (cols : List String) (r : GeometryRecord) : List SubPoly :=
  if r.geom.isEmptyG then []
  else
    match r.geom with
    | .gnone => []
    | .poly ring => [mkSub cols r ring]
    | .multi parts => parts.map (mkSub cols r)

/-- Model of `split_multipolygons_to_cds(gdf, id_field, ensure_cols)` from
viztaz_app.py lines 131-167: flatten the collection into one CDS row
per sub-polygon, in input order. -/
def split_multipolygons_to_cds (cols : List String)
    (gdf : List GeometryRecord) : List SubPoly :=
  gdf.flatMap (splitRecord cols)

/-- Model of `gdf_to_cds_polygons(gdf, id_field, ensure_cols)`: my_app.py
lines 97-144 is the same splitting procedure line for line. -/
def gdf_to_cds_polygons (cols : List String)
    (gdf : List GeometryRecord) : List SubPoly :=
  split_multipolygons_to_cds cols gdf

/-- The numeric content of a cell, if any. -/
def AttrVal.toNum : AttrVal → Option ℚ
  | .num q => some q
  | _ => none

/-- Running sum over one column, adding only the values that pass the
`isinstance(val, (int, float))` test. -/
def sumNumeric (vals : List AttrVal) : ℚ :=
  vals.foldl (fun s v => match v with | .num q => s + q | _ => s) 0

/-- Tabular ColumnDataSource payload: the `id` column plus the named
data columns, kept as parallel lists. -/
structure TableData where
  ids : List String
  cols : List (String × List AttrVal)
deriving DecidableEq

/-- Column lookup in a table payload. -/
def getCol (d : TableData) (c : String) : List AttrVal :=
  (d.cols.lookup c).getD []

/-- A table payload whose `id` column and every requested data column
are empty, as built by the clearing branches of the callbacks. -/
def emptyTable (cols : List String) : TableData :=
  ⟨[], cols.map (fun c => (c, []))⟩

/-- Model of `sum_columns(cds, columns)` from my_app.py lines 146-158: all-zero
sums when the `id` column is empty, otherwise the numeric sum of each
requested column. -/
def sum_columns (d : TableData) (columns : List String) : List (String × ℚ) :=
  if d.ids.isEmpty then columns.map (fun c => (c, 0))
  else columns.map (fun c => (c, sumNumeric (getCol d c)))

/-- Model of `add_sum_row(d, colnames)` from viztaz_app.py lines 210-224: append
a row labelled `Sum` holding the numeric sum of each listed column.
The callers always pass a dict that contains the `id` key and every
listed column, which is the case modelled here. -/
def add_sum_row (colnames : List String) (d : TableData) : TableData :=
  ⟨d.ids ++ ["Sum"],
   d.cols.map (fun p =>
     if p.1 ∈ colnames then (p.1, p.2 ++ [AttrVal.num (sumNumeric p.2)]) else p)⟩

/-- A panel viewport: the numeric bounding box held by the x and y
ranges of one figure. -/
structure Bounds where
  minx : ℚ
  miny : ℚ
  maxx : ℚ
  maxy : ℚ
deriving DecidableEq

/-- The zoom computation at the end of a successful search
(viztaz_app.py lines 639-649, my_app.py lines 584-596): pad each side
by an absolute 1000 units when the box is degenerate, otherwise expand
each side by `0.05` times the corresponding extent. -/
def expandBounds (b : Bounds) : Bounds :=
  if b.minx = b.maxx ∨ b.miny = b.maxy then
    ⟨b.minx - 1000, b.miny - 1000, b.maxx + 1000, b.maxy + 1000⟩
  else
    ⟨b.minx - (5 / 100) * (b.maxx - b.minx),
     b.miny - (5 / 100) * (b.maxy - b.miny),
     b.maxx + (5 / 100) * (b.maxx - b.minx),
     b.maxy + (5 / 100) * (b.maxy - b.miny)⟩

/-- Modelled from the spec: the viewport is the bounding box expanded
by a fixed 5 percent of its width on each horizontal side and 5 percent
of its height on each vertical side, or padded by a fixed absolute
amount when the box has zero width or zero height. -/
def specViewport (b : Bounds) : Bounds :=
  let w := b.maxx - b.minx
  let h := b.maxy - b.miny
  if w = 0 ∨ h = 0 then
    ⟨b.minx - 1000, b.miny - 1000, b.maxx + 1000, b.maxy + 1000⟩
  else
    ⟨b.minx - w / 20, b.miny - h / 20, b.maxx + w / 20, b.maxy + h / 20⟩

/-- All coordinate points of a geometry, used for its bounds. -/
def Geom.points : Geom → List (ℚ × ℚ)
  | .gnone => []
  | .poly r => r
  | .multi ps => ps.flatten

/-- Model of `gdf.total_bounds`: the componentwise min and max over every
coordinate of the collection (junk value on an empty collection, which
never occurs on the success path). -/
def totalBounds (gdf : List GeometryRecord) : Bounds :=
  match gdf.flatMap (fun r => r.geom.points) with
  | [] => ⟨0, 0, 0, 0⟩
  | p :: rest =>
    rest.foldl
      (fun b q => ⟨min b.minx q.1, min b.miny q.2, max b.maxx q.1, max b.maxy q.2⟩)
      ⟨p.1, p.2, p.1, p.2⟩

/-- External geometry operations the engine delegates to shapely and
geopandas: the intersects predicate, the n-ary union, and the buffer of
radius `r` around the centroid of a geometry (`geom.centroid.buffer(r)`).
The claims hold for every instantiation of these collaborators. -/
structure GeoCtx where
  inter : Geom → Geom → Bool
  unionG : List Geom → Geom
  centroidBuffer : Geom → ℚ → Geom

/-- The three full geometry collections loaded at startup. -/
structure GeoDB where
  old_taz : List GeometryRecord
  new_taz : List GeometryRecord
  blocks : List GeometryRecord

/-- pandas comparison `gdf[id_field] == old_id_int`: an integer-typed
identifier matches by value, a string-typed identifier never compares
equal to an int. -/
def IdVal.eqInt : IdVal → Int → Bool
  | .iint n, m => n == m
  | .istr _, _ => false

/-- Model of `filter_old_taz(old_id_int)` from viztaz_app.py lines 193-208:
resolve the old TAZ rows by identifier; if none, report not found;
otherwise filter the new TAZ and blocks collections to those
intersecting the 1 km buffer around the centroid of the old TAZ
union. -/
def filter_old_taz (ctx : GeoCtx) (db : GeoDB) (old_id : Int) :
    Option (List GeometryRecord × List GeometryRecord × List GeometryRecord) :=
  let subset_old := db.old_taz.filter (fun r => r.rid.eqInt old_id)
  if subset_old.isEmpty then none
  else
    let buffer_geom := ctx.centroidBuffer (ctx.unionG (subset_old.map (·.geom))) 1000
    some (subset_old,
          db.new_taz.filter (fun r => ctx.inter r.geom buffer_geom),
          db.blocks.filter (fun r => ctx.inter r.geom buffer_geom))

/-- The message classes shown by the `search_label` Div.  The source
shows the literal texts `(no input)`, `[TAZ Not Found]` (used both for
an unparsable identifier and for a parsed identifier with no matching
old TAZ row, which are distinct code paths) and the found identifier in
green. -/
inductive SearchStatus where
  | statusNone
  | noInput
  | invalidInput
  | notFound
  | found (id : Int)
deriving DecidableEq

/-- The attribute columns carried by the fine-zone and micro-unit
tables in my_app.py. -/
def cols19 : List String := ["HH19", "PERSNS19", "WORKRS19", "EMP19"]

/-- The attribute columns carried in viztaz_app.py, which adds the 2049
data columns. -/
def cols8 : List String :=
  ["HH19", "PERSNS19", "WORKRS19", "EMP19", "HH49", "PERSNS49", "WORKRS49", "EMP49"]

/-- The mutable document state of viztaz_app.py that the claims
observe: the status label, the eight polygon data sources, the two
tables, the two selection index lists, the two global post-search
pools, and the four panel viewports.  Display-only sources (the buffer
fill, neighbor outlines, text labels and the `_fmt` display columns)
are not tracked. -/
structure VizState where
  search_label : SearchStatus
  old_taz_source : List SubPoly
  old_taz_blocks_source : List SubPoly
  new_taz_source : List SubPoly
  new_taz_blocks_source : List SubPoly
  blocks_source : List SubPoly
  combined_old_source : List SubPoly
  combined_new_source : List SubPoly
  combined_blocks_source : List SubPoly
  new_taz_table : TableData
  blocks_table : TableData
  new_sel : List Nat
  blocks_sel : List Nat
  global_new_gdf : Option (List GeometryRecord)
  global_blocks_gdf : Option (List GeometryRecord)
  vOld : Bounds
  vNew : Bounds
  vCombined : Bounds
  vBlocks : Bounds
deriving DecidableEq

/-- Sequence a list of possibly-raising element computations, as a
Python list comprehension does: the first raised `IndexError` (a
`none`) aborts the whole comprehension. -/
def collectAll {α : Type} : List (Option α) → Option (List α)
  | [] => some []
  | none :: _ => none
  | some a :: rest => (collectAll rest).map (a :: ·)

/-- Reading one attribute cell of a CDS row; the callers only read
columns that the splitting procedure materialised on the row. -/
def getAttrS (sp : SubPoly) (c : String) : AttrVal :=
  (sp.attrs.lookup c).getD .null

/-- The table extraction loop `d[c] = [src.data[c][i] for i in inds]`
over the `id` column and the requested data columns; an out-of-range
index raises, modelled as `none`. -/
def extractRows (cols : List String) (src : List SubPoly)
    (inds : List Nat) : Option TableData :=
  match collectAll (inds.map (fun i => (src.get? i).map (·.pid))) with
  | none => none
  | some ids =>
    match collectAll (cols.map (fun c =>
        (collectAll (inds.map (fun i =>
          (src.get? i).map (fun sp => getAttrS sp c)))).map (fun vals => (c, vals)))) with
    | none => none
    | some cdata => some ⟨ids, cdata⟩

/-- Model of `update_blocks_table()` from viztaz_app.py lines 526-534: build the
blocks table from the current selection indices (raising on an
out-of-range index) and append the Sum row even when the selection is
empty. -/
def update_blocks_table (blocks_src : List SubPoly)
    (inds : List Nat) : Option TableData :=
  if inds.isEmpty then some (add_sum_row cols8 (emptyTable cols8))
  else (extractRows cols8 blocks_src inds).map (add_sum_row cols8)

/-- The outcome of `val = text_input.value.strip()` followed by
`int(val)` inside try/except: the stripped text is empty, the parse
raises `ValueError`, or the parse yields an integer.  The Python
integer lexer itself is a stdlib collaborator. -/
inductive UserInput where
  | empty
  | notInt (raw : String)
  | intVal (id : Int)
deriving DecidableEq

/-- Model of `run_search()` from viztaz_app.py lines 556-661 as a pure state
transformer.  On empty input or a parse failure only the label
changes; on a parsed identifier with no matching old TAZ row the label
reports not found and the function returns with everything else
untouched; on success the eight sources are rebuilt by splitting, the
globals capture the post-search pools, the selections are cleared, both
tables are rebuilt for the empty selection (a lone Sum row), and all
four panels get the expanded bounding box of the old TAZ rows. -/
def run_search (ctx : GeoCtx) (db : GeoDB) (inp : UserInput) (s : VizState) : VizState :=
  match inp with
  | .empty => { s with search_label := .noInput }
  | .notInt _ => { s with search_label := .invalidInput }
  | .intVal old_id =>
      match filter_old_taz ctx db old_id with
      | none => { s with search_label := .notFound }
      | some (o, n, b) =>
        let old_temp := split_multipolygons_to_cds [] o
        let new_temp := split_multipolygons_to_cds cols8 n
        let blocks_temp := split_multipolygons_to_cds cols8 b
        let ob_temp := split_multipolygons_to_cds [] b
        let vp := expandBounds (totalBounds o)
        { search_label := .found old_id
          old_taz_source := old_temp
          old_taz_blocks_source := ob_temp
          new_taz_source := new_temp
          new_taz_blocks_source := ob_temp
          blocks_source := blocks_temp
          combined_old_source := old_temp
          combined_new_source := new_temp
          combined_blocks_source := ob_temp
          new_taz_table := add_sum_row cols8 (emptyTable cols8)
          blocks_table := add_sum_row cols8 (emptyTable cols8)
          new_sel := []
          blocks_sel := []
          global_new_gdf := some n
          global_blocks_gdf := some b
          vOld := vp
          vNew := vp
          vCombined := vp
          vBlocks := vp }

/-- Model of `on_match_zoom_click()` from viztaz_app.py lines 688-696 and
my_app.py lines 605-625: a one-shot copy of the panel 1 ranges onto
panels 2, 3 and 4; no link object is created. -/
def on_match_zoom_click (s : VizState) : VizState :=
  { s with vNew := s.vOld, vCombined := s.vOld, vBlocks := s.vOld }

/-- The four figure panels. -/
inductive Panel where
  | pOld
  | pNew
  | pCombined
  | pBlocks
deriving DecidableEq

/-- An independent pan or zoom on one panel: the renderer writes the
range of that panel only. -/
def setViewport (s : VizState) (p : Panel) (b : Bounds) : VizState :=
  match p with
  | .pOld => { s with vOld := b }
  | .pNew => { s with vNew := b }
  | .pCombined => { s with vCombined := b }
  | .pBlocks => { s with vBlocks := b }

/-- The mutable state of my_app.py that the cascade claims observe:
the fine-zone CDS and its selection, the blocks CDS, the fine-zone
table and its sum line, and the two global post-search pools. -/
structure MyAppState where
  new_taz_source : List SubPoly
  blocks_source : List SubPoly
  new_taz_table : TableData
  new_taz_sums : List (String × ℚ)
  new_sel : List Nat
  global_new_web : Option (List GeometryRecord)
  global_blocks_web : Option (List GeometryRecord)
deriving DecidableEq

/-- The records of the fine-zone pool whose string-coerced identifier
is among the selected id strings:
`global_new_web[global_new_web[taz_id].astype(str).isin(sel_ids)]`
(my_app.py line 442). -/
def chosenRecords (gnw : List GeometryRecord) (sel_ids : List String) :
    List GeometryRecord :=
  gnw.filter (fun r => decide (r.rid.toStr ∈ sel_ids))

/-- Model of `do_new_taz_selection_intersection()` from my_app.py lines 425-453.
The source guards `not sel_inds or global_new_web is None or
global_blocks_web is None` in a single test and returns unchanged;
reading `new_taz_source.data[id][i]` can raise on a stale index
(`none`); `set(...)` of the selected id strings is modelled by
`dedup`; the chosen fine zones are unified and the blocks pool is
filtered by intersection with that union, then split into the blocks
CDS. -/
def do_new_taz_selection_intersection (ctx : GeoCtx) (s : MyAppState) :
    Option MyAppState :=
  match s.global_new_web, s.global_blocks_web with
  | some gnw, some gbw =>
    if s.new_sel.isEmpty then some s
    else
      match collectAll (s.new_sel.map (fun i => (s.new_taz_source.get? i).map (·.pid))) with
      | none => none
      | some pids =>
        let sel_ids := pids.dedup
        if sel_ids.isEmpty then some s
        else
          let chosen := chosenRecords gnw sel_ids
          if chosen.isEmpty then some s
          else
            let union_poly := ctx.unionG (chosen.map (·.geom))
            let filtered_blocks := gbw.filter (fun r => ctx.inter r.geom union_poly)
            some { s with
              blocks_source := gdf_to_cds_polygons cols19 filtered_blocks }
  | _, _ => some s

/-- Model of `new_taz_selection_change` from my_app.py lines 455-488, the later
definition that supersedes the stub at lines 330-391.  An empty
selection clears the table, zeroes the sum line and restores the
blocks CDS from the post-search pool; a non-empty selection rebuilds
the table from the selected rows (raising on a stale index), recomputes
the sums and then runs the intersection cascade. -/
def new_taz_selection_change (ctx : GeoCtx) (s : MyAppState) :
    Option MyAppState :=
  if s.new_sel.isEmpty then
    some { s with
      new_taz_table := emptyTable cols19
      new_taz_sums := cols19.map (fun c => (c, 0))
      blocks_source :=
        match s.global_blocks_web with
        | some gbw => gdf_to_cds_polygons cols19 gbw
        | none => s.blocks_source }
  else
    match extractRows cols19 s.new_taz_source s.new_sel with
    | none => none
    | some tbl =>
      do_new_taz_selection_intersection ctx
        { s with new_taz_table := tbl, new_taz_sums := sum_columns tbl cols19 }

/-- The full my_app.py document state touched by `on_search_click`: the
status Div, the eight polygon data sources, the two tables with their
sum lines, the two selection index lists, the two global post-search
pools, and the panel 1 viewport (my_app zooms panel 1 only on search).
The transient loading text, which every return path overwrites, is not
tracked as a separate status. -/
structure MyAppDoc where
  search_status : SearchStatus
  old_taz_source : List SubPoly
  old_taz_blocks_source : List SubPoly
  new_taz_source : List SubPoly
  new_taz_blocks_source : List SubPoly
  combined_old_source : List SubPoly
  combined_new_source : List SubPoly
  combined_blocks_source : List SubPoly
  blocks_source : List SubPoly
  new_taz_table : TableData
  new_taz_sums : List (String × ℚ)
  blocks_table : TableData
  blocks_sums : List (String × ℚ)
  new_sel : List Nat
  blocks_sel : List Nat
  global_new_web : Option (List GeometryRecord)
  global_blocks_web : Option (List GeometryRecord)
  vOld : Bounds
deriving DecidableEq

/-- The slice of the document state that the Panel 2 selection handler
reads and writes; the Python handlers act on the same ambient globals,
so this is pure projection glue. -/
def MyAppDoc.core (d : MyAppDoc) : MyAppState :=
  ⟨d.new_taz_source, d.blocks_source, d.new_taz_table, d.new_taz_sums,
   d.new_sel, d.global_new_web, d.global_blocks_web⟩

/-- Writing the handler slice back into the document state. -/
def MyAppDoc.withCore (d : MyAppDoc) (s : MyAppState) : MyAppDoc :=
  { d with
    new_taz_source := s.new_taz_source
    blocks_source := s.blocks_source
    new_taz_table := s.new_taz_table
    new_taz_sums := s.new_taz_sums
    new_sel := s.new_sel
    global_new_web := s.global_new_web
    global_blocks_web := s.global_blocks_web }

/-- Model of `blocks_selection_change` from my_app.py lines 393-415: an
empty blocks selection empties the blocks table and zeroes its sums; a
non-empty one rebuilds the table from the selected rows (raising on a
stale index) and recomputes the sums.  No other layer is touched. -/
def blocks_selection_change (d : MyAppDoc) : Option MyAppDoc :=
  if d.blocks_sel.isEmpty then
    some { d with
      blocks_table := emptyTable cols19
      blocks_sums := cols19.map (fun c => (c, 0)) }
  else
    (extractRows cols19 d.blocks_source d.blocks_sel).map (fun tbl =>
      { d with blocks_table := tbl, blocks_sums := sum_columns tbl cols19 })

/-- Model of `new_taz_source.selected.update(indices=[])` inside
`on_search_click` (my_app.py line 533): the Bokeh property setter fires
the registered `new_taz_selection_change` callback only when the value
actually changes, so an already-empty selection is a no-op and a
non-empty one runs the handler at the new empty index list. -/
def clear_new_taz_selection (ctx : GeoCtx) (d : MyAppDoc) : Option MyAppDoc :=
  if d.new_sel = [] then some d
  else (new_taz_selection_change ctx { d.core with new_sel := [] }).map d.withCore

/-- Model of `blocks_source.selected.update(indices=[])` inside
`on_search_click` (my_app.py line 534), firing `blocks_selection_change`
only when the selection actually changes. -/
def clear_blocks_selection (d : MyAppDoc) : Option MyAppDoc :=
  if d.blocks_sel = [] then some d
  else blocks_selection_change { d with blocks_sel := [] }

/-- Model of `filter_old_taz_data(old_taz_id)` from my_app.py lines
160-175: resolve the old TAZ rows by identifier; if none, report not
found; otherwise filter the new TAZ and blocks collections to those
intersecting the union of the old TAZ geometries (no buffer in this
variant).  The web mercator reprojection is a coordinate collaborator
and is not re-modelled. -/
def filter_old_taz_data (ctx : GeoCtx) (db : GeoDB) (old_id : Int) :
    Option (List GeometryRecord × List GeometryRecord × List GeometryRecord) :=
  let subset_old := db.old_taz.filter (fun r => r.rid.eqInt old_id)
  if subset_old.isEmpty then none
  else
    let region := ctx.unionG (subset_old.map (·.geom))
    some (subset_old,
          db.new_taz.filter (fun r => ctx.inter r.geom region),
          db.blocks.filter (fun r => ctx.inter r.geom region))

/-- Model of `on_search_click()` from my_app.py lines 530-603 as a pure
state transformer: both selections are cleared first (their callbacks
firing on an actual change), then the input is parsed; on empty input,
a parse failure or a missing old TAZ only the status changes further
and the function returns; on success the pools, the eight sources, the
status and the panel 1 viewport are rewritten. -/
def on_search_click (ctx : GeoCtx) (db : GeoDB) (inp : UserInput)
    (d : MyAppDoc) : Option MyAppDoc :=
  match clear_new_taz_selection ctx d with
  | none => none
  | some d1 =>
    match clear_blocks_selection d1 with
    | none => none
    | some d2 =>
      match inp with
      | .empty => some { d2 with search_status := .noInput }
      | .notInt _ => some { d2 with search_status := .invalidInput }
      | .intVal old_id =>
        match filter_old_taz_data ctx db old_id with
        | none => some { d2 with search_status := .notFound }
        | some (o, n, b) =>
          let old_temp := split_multipolygons_to_cds [] o
          let new_temp := split_multipolygons_to_cds cols19 n
          let blocks_temp := split_multipolygons_to_cds cols19 b
          let ob_temp := split_multipolygons_to_cds [] b
          some { d2 with
            search_status := .found old_id
            global_new_web := some n
            global_blocks_web := some b
            old_taz_source := old_temp
            old_taz_blocks_source := ob_temp
            new_taz_source := new_temp
            new_taz_blocks_source := ob_temp
            combined_old_source := old_temp
            combined_new_source := new_temp
            combined_blocks_source := ob_temp
            blocks_source := blocks_temp
            vOld := expandBounds (totalBounds o) }

/-- The default CDS row, used to express the value read at an index that
was first checked to be in range. -/
def dfltSub : SubPoly := ⟨[], "", []⟩

/-- The number of CDS rows a record contributes: none when its geometry
is absent or empty, one for a single polygon, one per part for a
multi-part geometry. -/
def numParts (r : GeometryRecord) : Nat :=
  if r.geom.isEmptyG then 0
  else
    match r.geom with
    | .gnone => 0
    | .poly _ => 1
    | .multi ps => ps.length

/-- The constituent rings of a geometry. -/
def ringsOf : Geom → List Ring
  | .gnone => []
  | .poly r => [r]
  | .multi ps => ps

/-- The distinct parent identifiers of the indexed sub-polygons, read
positionally from the current CDS rows. -/
def selectedParentIds (src : List SubPoly) (inds : List Nat) : List String :=
  (inds.map (fun i => (src.getD i dfltSub).pid)).dedup

theorem splitRecord_length (cols : List String) (r : GeometryRecord) :
    (splitRecord cols r).length = numParts r := by
  unfold splitRecord numParts
  by_cases h : r.geom.isEmptyG
  · simp [h]
  · simp only [h, if_neg, Bool.false_eq_true, not_false_eq_true, if_false]
    cases hg : r.geom with
    | gnone => rfl
    | poly ring => rfl
    | multi ps => simp

theorem mem_splitRecord {cols : List String} {r : GeometryRecord} {sp : SubPoly}
    (h : sp ∈ splitRecord cols r) :
    r.geom.isEmptyG = false ∧ sp.pid = r.rid.toStr
      ∧ sp.attrs = cols.map (fun c => (c, getAttr r c))
      ∧ sp.ring ∈ ringsOf r.geom := by
  unfold splitRecord at h
  by_cases he : r.geom.isEmptyG
  · simp [he] at h
  · rw [if_neg he] at h
    refine ⟨by simpa using he, ?_⟩
    cases hg : r.geom with
    | gnone => rw [hg] at h; simp at h
    | poly ring =>
      rw [hg] at h
      simp only [List.mem_singleton] at h
      subst h
      exact ⟨rfl, rfl, by simp [ringsOf, mkSub]⟩
    | multi ps =>
      rw [hg] at h
      simp only [List.mem_map] at h
      obtain ⟨ring, hring, hsp⟩ := h
      subst hsp
      exact ⟨rfl, rfl, by simpa [ringsOf, mkSub] using hring⟩

theorem splitRecord_exists_pid (cols : List String) (r : GeometryRecord)
    (h : r.geom.isEmptyG = false) :
    ∃ sp ∈ splitRecord cols r, sp.pid = r.rid.toStr := by
  unfold splitRecord
  rw [if_neg (by simp [h])]
  cases hg : r.geom with
  | gnone => rw [hg] at h; simp [Geom.isEmptyG] at h
  | poly ring => exact ⟨mkSub cols r ring, by simp, rfl⟩
  | multi ps =>
    rw [hg] at h
    simp only [Geom.isEmptyG, List.isEmpty_eq_false] at h
    cases ps with
    | nil => simp at h
    | cons p rest => exact ⟨mkSub cols r p, by simp, rfl⟩

theorem length_pos_splitRecord (cols : List String) (r : GeometryRecord)
    (h : r.geom.isEmptyG = false) : 1 ≤ (splitRecord cols r).length := by
  obtain ⟨sp, hsp, _⟩ := splitRecord_exists_pid cols r h
  exact List.length_pos.mpr (List.ne_nil_of_mem hsp)

theorem mem_split_iff (cols : List String) (rs : List GeometryRecord) (sp : SubPoly) :
    sp ∈ split_multipolygons_to_cds cols rs
      ↔ ∃ r ∈ rs, sp ∈ splitRecord cols r := by
  simp [split_multipolygons_to_cds, List.mem_flatMap]

theorem collectAll_cons_some {α : Type} (a : α) (xs : List (Option α)) :
    collectAll (some a :: xs) = (collectAll xs).map (a :: ·) := rfl

theorem collectAll_map_eq {α : Type} (src : List SubPoly) (f : SubPoly → α)
    (inds : List Nat) (h : ∀ i ∈ inds, i < src.length) :
    collectAll (inds.map (fun i => (src.get? i).map f))
      = some (inds.map (fun i => f (src.getD i dfltSub))) := by
  induction inds with
  | nil => rfl
  | cons i rest ih =>
    have hi : i < src.length := h i (by simp)
    have hget : src.get? i = some (src.getD i dfltSub) := by
      simp [List.getD, List.getElem?_eq_getElem hi]
    have ihr := ih (fun j hj => h j (by simp [hj]))
    rw [List.map_cons, hget, Option.map_some', collectAll_cons_some, ihr,
      Option.map_some', List.map_cons]

theorem extractRows_isSome (cols : List String) (src : List SubPoly)
    (inds : List Nat) (h : ∀ i ∈ inds, i < src.length) :
    (extractRows cols src inds).isSome = true := by
  unfold extractRows
  rw [collectAll_map_eq src (·.pid) inds h]
  have hc : ∀ c, collectAll (inds.map (fun i =>
      (src.get? i).map (fun sp => getAttrS sp c)))
        = some (inds.map (fun i => getAttrS (src.getD i dfltSub) c)) :=
    fun c => collectAll_map_eq src (fun sp => getAttrS sp c) inds h
  have : collectAll (cols.map (fun c =>
      (collectAll (inds.map (fun i =>
        (src.get? i).map (fun sp => getAttrS sp c)))).map (fun vals => (c, vals))))
      = some (cols.map (fun c => (c, inds.map (fun i => getAttrS (src.getD i dfltSub) c)))) := by
    induction cols with
    | nil => rfl
    | cons c rest ihc =>
      rw [List.map_cons, hc c, Option.map_some', collectAll_cons_some, ihc,
        Option.map_some', List.map_cons]
  rw [this]
  rfl

theorem expandBounds_eq_specViewport (b : Bounds) :
    expandBounds b = specViewport b := by
  unfold expandBounds specViewport
  by_cases h : b.minx = b.maxx ∨ b.miny = b.maxy
  · rw [if_pos h, if_pos (by rcases h with h | h <;> simp [sub_eq_zero, h.symm])]
  · rw [if_neg h, if_neg (by
      rcases not_or.mp h with ⟨h1, h2⟩
      push_neg
      constructor
      · rw [sub_ne_zero]; exact fun hc => h1 hc.symm
      · rw [sub_ne_zero]; exact fun hc => h2 hc.symm)]
    simp only [Bounds.mk.injEq]
    refine ⟨by ring, by ring, by ring, by ring⟩

theorem foldl_pan_pOld_fixes_targets (pans : List Bounds) (t : VizState) :
    (pans.foldl (fun u b => setViewport u .pOld b) t).vNew = t.vNew
    ∧ (pans.foldl (fun u b => setViewport u .pOld b) t).vCombined = t.vCombined
    ∧ (pans.foldl (fun u b => setViewport u .pOld b) t).vBlocks = t.vBlocks := by
  induction pans generalizing t with
  | nil => exact ⟨rfl, rfl, rfl⟩
  | cons b rest ih => simpa [setViewport] using ih { t with vOld := b }

theorem split_count_ge (cols : List String) (rs : List GeometryRecord) :
    (rs.filter (fun r => !r.geom.isEmptyG)).length
      ≤ (split_multipolygons_to_cds cols rs).length := by
  induction rs with
  | nil => simp [split_multipolygons_to_cds]
  | cons r rest ih =>
    simp only [split_multipolygons_to_cds, List.flatMap_cons, List.length_append,
      List.filter_cons] at *
    by_cases h : r.geom.isEmptyG
    · simp only [h, Bool.not_true, if_neg (by simp : ¬(false = true))]
      exact ih.trans (Nat.le_add_left _ _)
    · have hf : r.geom.isEmptyG = false := by simpa using h
      have h1 := length_pos_splitRecord cols r hf
      simp only [hf, Bool.not_false, if_true, List.length_cons]
      omega

theorem split_pids_iff (cols : List String) (rs : List GeometryRecord) (x : String) :
    x ∈ (split_multipolygons_to_cds cols rs).map (fun sp => sp.pid)
      ↔ x ∈ (rs.filter (fun r => !r.geom.isEmptyG)).map (fun r => r.rid.toStr) := by
  constructor
  · intro hx
    obtain ⟨sp, hsp, hpid⟩ := List.mem_map.mp hx
    obtain ⟨r, hr, hm⟩ := (mem_split_iff cols rs sp).mp hsp
    obtain ⟨h1, h2, -, -⟩ := mem_splitRecord hm
    exact List.mem_map.mpr ⟨r, List.mem_filter.mpr ⟨hr, by simp [h1]⟩, by rw [← h2, hpid]⟩
  · intro hx
    obtain ⟨r, hrf, hpid⟩ := List.mem_map.mp hx
    have hf := List.mem_filter.mp hrf
    obtain ⟨sp, hsp, hsppid⟩ :=
      splitRecord_exists_pid cols r (by simpa using hf.2)
    exact List.mem_map.mpr
      ⟨sp, (mem_split_iff cols rs sp).mpr ⟨r, hf.1, hsp⟩, by rw [hsppid, hpid]⟩

/-- C4 — decomposition shape and field preservation: the CDS holds one
row per single polygon and one per multi-part constituent, records with
absent or empty geometry contribute nothing (and raise nothing, the
function being total), and every emitted row carries the parent
identifier (in its string form) and the requested attribute values of
its source record unchanged. -/
theorem decompose_shape_and_fields (cols : List String) (rs : List GeometryRecord) :
    (split_multipolygons_to_cds cols rs).length = (rs.map numParts).sum
    ∧ ∀ sp ∈ split_multipolygons_to_cds cols rs,
        ∃ r ∈ rs, r.geom.isEmptyG = false
          ∧ sp.pid = r.rid.toStr
          ∧ sp.attrs = cols.map (fun c => (c, getAttr r c))
          ∧ sp.ring ∈ ringsOf r.geom := by
  constructor
  · rw [split_multipolygons_to_cds, List.length_flatMap]
    exact congrArg List.sum
      (List.map_congr_left (fun r _ => splitRecord_length cols r))
  · intro sp hsp
    obtain ⟨r, hr, hm⟩ := (mem_split_iff cols rs sp).mp hsp
    obtain ⟨h1, h2, h3, h4⟩ := mem_splitRecord hm
    exact ⟨r, hr, h1, h2, h3, h4⟩

/-- C5 — decomposition round trip: the CDS holds at least one row per
input record with non-empty geometry, and the deduplicated parent
identifiers of the output coincide with the identifiers of the input
records with non-empty geometry. -/
theorem decompose_round_trip (cols : List String) (rs : List GeometryRecord) :
    (rs.filter (fun r => !r.geom.isEmptyG)).length
        ≤ (split_multipolygons_to_cds cols rs).length
    ∧ ∀ x : String,
        x ∈ (split_multipolygons_to_cds cols rs).map (fun sp => sp.pid)
          ↔ x ∈ (rs.filter (fun r => !r.geom.isEmptyG)).map (fun r => r.rid.toStr) :=
  ⟨split_count_ge cols rs, split_pids_iff cols rs⟩

theorem foldl_sumNumeric_aux (vals : List AttrVal) (a : ℚ) :
    vals.foldl (fun s v => match v with | .num q => s + q | _ => s) a
      = a + (vals.filterMap AttrVal.toNum).sum := by
  induction vals generalizing a with
  | nil => simp
  | cons v rest ih =>
    cases v with
    | num q =>
      simp only [List.foldl_cons, List.filterMap_cons, AttrVal.toNum, List.sum_cons, ih]
      ring
    | null => simpa [List.foldl_cons, List.filterMap_cons, AttrVal.toNum] using ih a
    | txt s => simpa [List.foldl_cons, List.filterMap_cons, AttrVal.toNum] using ih a

theorem sumNumeric_eq_sum_filterMap (vals : List AttrVal) :
    sumNumeric vals = (vals.filterMap AttrVal.toNum).sum := by
  simpa [sumNumeric] using foldl_sumNumeric_aux vals 0

/-- C7 — aggregation: the sum of a column is the sum of its numeric
subset (null and non-numeric cells are skipped, not zeroed — they
simply do not contribute, though the result equals what zeroing would
give); the fixture 10, null, 20 sums to 30; with an empty selection the
blocks table consists of the lone Sum row with every sum zero, and the
my_app sum helper returns all-zero sums on an empty table. -/
theorem aggregation_correct :
    (∀ vals : List AttrVal, sumNumeric vals = (vals.filterMap AttrVal.toNum).sum)
    ∧ sumNumeric [AttrVal.num 10, AttrVal.null, AttrVal.num 20] = 30
    ∧ (∀ blocks_src : List SubPoly,
        update_blocks_table blocks_src [] =
          some ⟨["Sum"], cols8.map (fun c => (c, [AttrVal.num 0]))⟩)
    ∧ (∀ cs : List String,
        sum_columns (emptyTable cs) cs = cs.map (fun c => (c, 0))) := by
  refine ⟨sumNumeric_eq_sum_filterMap, ?_, ?_, ?_⟩
  · have h : sumNumeric [AttrVal.num 10, AttrVal.null, AttrVal.num 20]
        = 0 + 10 + 20 := rfl
    rw [h]; norm_num
  · intro blocks_src
    have h : add_sum_row cols8 (emptyTable cols8)
        = ⟨["Sum"], cols8.map (fun c => (c, [AttrVal.num 0]))⟩ := by decide
    simp [update_blocks_table, h]
  · intro cs
    simp [sum_columns, emptyTable]

/-- C8 — one-shot zoom copy: after the match-zoom click every target
panel reads the source panel bounds, and any subsequent sequence of
independent pans or zooms on the source panel leaves the target panels
untouched until the next explicit copy. -/
theorem match_zoom_one_shot (s : VizState) (pans : List Bounds) :
    ((on_match_zoom_click s).vNew = s.vOld
      ∧ (on_match_zoom_click s).vCombined = s.vOld
      ∧ (on_match_zoom_click s).vBlocks = s.vOld)
    ∧ ((pans.foldl (fun t b => setViewport t .pOld b) (on_match_zoom_click s)).vNew = s.vOld
      ∧ (pans.foldl (fun t b => setViewport t .pOld b) (on_match_zoom_click s)).vCombined = s.vOld
      ∧ (pans.foldl (fun t b => setViewport t .pOld b) (on_match_zoom_click s)).vBlocks = s.vOld) := by
  refine ⟨⟨rfl, rfl, rfl⟩, ?_⟩
  obtain ⟨h1, h2, h3⟩ := foldl_pan_pOld_fixes_targets pans (on_match_zoom_click s)
  exact ⟨h1, h2, h3⟩

/-- C10 — string-coerced parent identity: every decomposed row carries
the string conversion of the identifier field of its source record,
integer identifiers render in decimal form, and the cascade resolves a
record into the chosen set exactly when its string-coerced identifier
is among the selected id strings. -/
theorem parent_identity_is_string_equality :
    (∀ (cols : List String) (rs : List GeometryRecord) (sp : SubPoly),
        sp ∈ split_multipolygons_to_cds cols rs → ∃ r ∈ rs, sp.pid = r.rid.toStr)
    ∧ (∀ n : Int, (IdVal.iint n).toStr = toString n)
    ∧ (∀ (gnw : List GeometryRecord) (sel_ids : List String) (r : GeometryRecord),
        r ∈ chosenRecords gnw sel_ids ↔ r ∈ gnw ∧ r.rid.toStr ∈ sel_ids) := by
  refine ⟨?_, fun _ => rfl, ?_⟩
  · intro cols rs sp hsp
    obtain ⟨r, hr, hm⟩ := (mem_split_iff cols rs sp).mp hsp
    exact ⟨r, hr, (mem_splitRecord hm).2.1⟩
  · intro gnw sel_ids r
    simp [chosenRecords, List.mem_filter]

theorem getD_mem {l : List SubPoly} {i : Nat} (h : i < l.length) (d : SubPoly) :
    l.getD i d ∈ l := by
  have : l.getD i d = l[i] := by
    simp [List.getD, List.getElem?_eq_getElem h]
  rw [this]
  exact List.getElem_mem h

theorem split_filter_subset (cols : List String) (p : GeometryRecord → Bool)
    (l : List GeometryRecord) :
    split_multipolygons_to_cds cols (l.filter p) ⊆ split_multipolygons_to_cds cols l := by
  intro sp hsp
  obtain ⟨r, hr, hm⟩ := (mem_split_iff cols (l.filter p) sp).mp hsp
  exact (mem_split_iff cols l sp).mpr ⟨r, (List.mem_filter.mp hr).1, hm⟩

theorem do_intersection_isSome (ctx : GeoCtx) (s : MyAppState)
    (h : ∀ i ∈ s.new_sel, i < s.new_taz_source.length) :
    (do_new_taz_selection_intersection ctx s).isSome = true := by
  unfold do_new_taz_selection_intersection
  cases hgn : s.global_new_web with
  | none => rfl
  | some gnw =>
    cases hgb : s.global_blocks_web with
    | none => rfl
    | some gbw =>
      dsimp only
      by_cases hsel : s.new_sel.isEmpty
      · simp [hsel]
      · rw [if_neg hsel,
          collectAll_map_eq s.new_taz_source (fun sp => sp.pid) s.new_sel h]
        dsimp only
        split
        · rfl
        · split
          · rfl
          · rfl

theorem change_isSome (ctx : GeoCtx) (s : MyAppState)
    (h : ∀ i ∈ s.new_sel, i < s.new_taz_source.length) :
    (new_taz_selection_change ctx s).isSome = true := by
  unfold new_taz_selection_change
  by_cases hsel : s.new_sel.isEmpty
  · simp [hsel]
  · rw [if_neg hsel]
    obtain ⟨tbl, htbl⟩ :=
      Option.isSome_iff_exists.mp (extractRows_isSome cols19 s.new_taz_source s.new_sel h)
    rw [htbl]
    exact do_intersection_isSome ctx _ h

theorem do_intersection_shape (ctx : GeoCtx) (t x : MyAppState)
    (h : do_new_taz_selection_intersection ctx t = some x) :
    ∃ bs, x = { t with blocks_source := bs } := by
  unfold do_new_taz_selection_intersection at h
  cases hgn : t.global_new_web with
  | none =>
    rw [hgn] at h
    injection h with h2
    subst h2
    refine ⟨t.blocks_source, ?_⟩
    rw [← hgn]
  | some gnw =>
    cases hgb : t.global_blocks_web with
    | none =>
      rw [hgn, hgb] at h
      injection h with h2
      subst h2
      refine ⟨t.blocks_source, ?_⟩
      rw [← hgn, ← hgb]
    | some gbw =>
      rw [hgn, hgb] at h
      dsimp only at h
      by_cases hsel : t.new_sel.isEmpty
      · rw [if_pos hsel] at h
        injection h with h2
        subst h2
        refine ⟨t.blocks_source, ?_⟩
        rw [← hgn, ← hgb]
      · rw [if_neg hsel] at h
        cases hcoll : collectAll
            (t.new_sel.map (fun i => (t.new_taz_source.get? i).map (fun sp => sp.pid))) with
        | none => rw [hcoll] at h; exact Option.noConfusion h
        | some pids =>
          rw [hcoll] at h
          dsimp only at h
          by_cases hd : pids.dedup.isEmpty
          · rw [if_pos hd] at h
            injection h with h2
            subst h2
            refine ⟨t.blocks_source, ?_⟩
            rw [← hgn, ← hgb]
          · rw [if_neg hd] at h
            by_cases hch : (chosenRecords gnw pids.dedup).isEmpty
            · rw [if_pos hch] at h
              injection h with h2
              subst h2
              refine ⟨t.blocks_source, ?_⟩
              rw [← hgn, ← hgb]
            · rw [if_neg hch] at h
              injection h with h2
              subst h2
              rw [← hgn, ← hgb]
              exact ⟨_, rfl⟩

theorem change_shape (ctx : GeoCtx) (s x : MyAppState)
    (h : new_taz_selection_change ctx s = some x) :
    ∃ bs tb sm, x = { s with blocks_source := bs, new_taz_table := tb, new_taz_sums := sm } := by
  unfold new_taz_selection_change at h
  by_cases hsel : s.new_sel.isEmpty
  · rw [if_pos hsel] at h
    injection h with h2
    subst h2
    exact ⟨_, _, _, rfl⟩
  · rw [if_neg hsel] at h
    cases hext : extractRows cols19 s.new_taz_source s.new_sel with
    | none => rw [hext] at h; exact Option.noConfusion h
    | some tbl =>
      rw [hext] at h
      obtain ⟨bs, hbs⟩ := do_intersection_shape ctx _ x h
      exact ⟨bs, tbl, sum_columns tbl cols19, by rw [hbs]⟩

theorem change_on_empty (ctx : GeoCtx) (t : MyAppState)
    (gbw : List GeometryRecord) (hgb : t.global_blocks_web = some gbw)
    (hsel : t.new_sel = []) :
    new_taz_selection_change ctx t
      = some { t with
          new_taz_table := emptyTable cols19
          new_taz_sums := cols19.map (fun c => (c, 0))
          blocks_source := gdf_to_cds_polygons cols19 gbw } := by
  unfold new_taz_selection_change
  rw [hsel, hgb]
  rfl

theorem change_on_empty_total (ctx : GeoCtx) (t : MyAppState)
    (hsel : t.new_sel = []) :
    new_taz_selection_change ctx t
      = some { t with
          new_taz_table := emptyTable cols19
          new_taz_sums := cols19.map (fun c => (c, 0))
          blocks_source :=
            match t.global_blocks_web with
            | some gbw => gdf_to_cds_polygons cols19 gbw
            | none => t.blocks_source } := by
  unfold new_taz_selection_change
  rw [hsel]
  rfl

theorem clear_new_eq (ctx : GeoCtx) (d : MyAppDoc) :
    clear_new_taz_selection ctx d
      = some (if d.new_sel = [] then d
          else { d with
            new_sel := []
            new_taz_table := emptyTable cols19
            new_taz_sums := cols19.map (fun c => (c, 0))
            blocks_source :=
              match d.global_blocks_web with
              | some gbw => gdf_to_cds_polygons cols19 gbw
              | none => d.blocks_source }) := by
  unfold clear_new_taz_selection
  by_cases h : d.new_sel = []
  · rw [if_pos h, if_pos h]
  · rw [if_neg h, if_neg h, change_on_empty_total ctx _ rfl]
    rfl

theorem clear_blocks_eq (d : MyAppDoc) :
    clear_blocks_selection d
      = some (if d.blocks_sel = [] then d
          else { d with
            blocks_sel := []
            blocks_table := emptyTable cols19
            blocks_sums := cols19.map (fun c => (c, 0)) }) := by
  unfold clear_blocks_selection blocks_selection_change
  by_cases h : d.blocks_sel = []
  · rw [if_pos h, if_pos h]
  · rw [if_neg h, if_neg h]
    rfl

/-- The document state right after the two selection clears at the top
of `on_search_click`: each clear is a no-op when that selection is
already empty, and otherwise runs its registered handler at the empty
index list. -/
def clearedDoc (d : MyAppDoc) : MyAppDoc :=
  let d1 :=
    if d.new_sel = [] then d
    else { d with
      new_sel := []
      new_taz_table := emptyTable cols19
      new_taz_sums := cols19.map (fun c => (c, 0))
      blocks_source :=
        match d.global_blocks_web with
        | some gbw => gdf_to_cds_polygons cols19 gbw
        | none => d.blocks_source }
  if d1.blocks_sel = [] then d1
  else { d1 with
    blocks_sel := []
    blocks_table := emptyTable cols19
    blocks_sums := cols19.map (fun c => (c, 0)) }

theorem on_search_click_notfound (ctx : GeoCtx) (db : GeoDB) (id : Int)
    (d : MyAppDoc)
    (hmiss : db.old_taz.filter (fun r => r.rid.eqInt id) = []) :
    on_search_click ctx db (.intVal id) d
      = some { clearedDoc d with search_status := .notFound } := by
  unfold on_search_click
  rw [clear_new_eq ctx d]
  dsimp only
  rw [clear_blocks_eq]
  dsimp only
  unfold filter_old_taz_data
  rw [hmiss]
  rfl

theorem clearedDoc_fields (d : MyAppDoc) :
    (clearedDoc d).old_taz_source = d.old_taz_source
    ∧ (clearedDoc d).old_taz_blocks_source = d.old_taz_blocks_source
    ∧ (clearedDoc d).new_taz_source = d.new_taz_source
    ∧ (clearedDoc d).new_taz_blocks_source = d.new_taz_blocks_source
    ∧ (clearedDoc d).combined_old_source = d.combined_old_source
    ∧ (clearedDoc d).combined_new_source = d.combined_new_source
    ∧ (clearedDoc d).combined_blocks_source = d.combined_blocks_source
    ∧ ((clearedDoc d).blocks_source = d.blocks_source
        ∨ ∃ gbw, d.global_blocks_web = some gbw
            ∧ (clearedDoc d).blocks_source = gdf_to_cds_polygons cols19 gbw)
    ∧ (clearedDoc d).global_new_web = d.global_new_web
    ∧ (clearedDoc d).global_blocks_web = d.global_blocks_web
    ∧ (clearedDoc d).vOld = d.vOld
    ∧ (clearedDoc d).new_sel = []
    ∧ (clearedDoc d).blocks_sel = []
    ∧ (d.new_sel = [] → d.blocks_sel = [] → clearedDoc d = d) := by
  by_cases h1 : d.new_sel = []
  · by_cases h2 : d.blocks_sel = []
    · have hcd : clearedDoc d = d := by
        unfold clearedDoc
        rw [if_pos h1, if_pos h2]
      rw [hcd]
      exact ⟨rfl, rfl, rfl, rfl, rfl, rfl, rfl, Or.inl rfl, rfl, rfl, rfl, h1, h2,
        fun _ _ => rfl⟩
    · have hcd : clearedDoc d
          = { d with
              blocks_sel := []
              blocks_table := emptyTable cols19
              blocks_sums := cols19.map (fun c => (c, 0)) } := by
        unfold clearedDoc
        rw [if_pos h1, if_neg h2]
      rw [hcd]
      exact ⟨rfl, rfl, rfl, rfl, rfl, rfl, rfl, Or.inl rfl, rfl, rfl, rfl, h1, rfl,
        fun _ hb => absurd hb h2⟩
  · cases hg : d.global_blocks_web with
    | none =>
      by_cases h2 : d.blocks_sel = []
      · have hcd : clearedDoc d
            = { d with
                new_sel := []
                new_taz_table := emptyTable cols19
                new_taz_sums := cols19.map (fun c => (c, 0))
                blocks_source := d.blocks_source } := by
          unfold clearedDoc
          rw [if_neg h1, hg, if_pos h2]
        rw [hcd]
        exact ⟨rfl, rfl, rfl, rfl, rfl, rfl, rfl, Or.inl rfl, rfl, hg, rfl, rfl, h2,
          fun ha _ => absurd ha h1⟩
      · have hcd : clearedDoc d
            = { d with
                new_sel := []
                new_taz_table := emptyTable cols19
                new_taz_sums := cols19.map (fun c => (c, 0))
                blocks_source := d.blocks_source
                blocks_sel := []
                blocks_table := emptyTable cols19
                blocks_sums := cols19.map (fun c => (c, 0)) } := by
          unfold clearedDoc
          rw [if_neg h1, hg, if_neg h2]
        rw [hcd]
        exact ⟨rfl, rfl, rfl, rfl, rfl, rfl, rfl, Or.inl rfl, rfl, hg, rfl, rfl, rfl,
          fun ha _ => absurd ha h1⟩
    | some gbw =>
      by_cases h2 : d.blocks_sel = []
      · have hcd : clearedDoc d
            = { d with
                new_sel := []
                new_taz_table := emptyTable cols19
                new_taz_sums := cols19.map (fun c => (c, 0))
                blocks_source := gdf_to_cds_polygons cols19 gbw } := by
          unfold clearedDoc
          rw [if_neg h1, hg, if_pos h2]
        rw [hcd]
        exact ⟨rfl, rfl, rfl, rfl, rfl, rfl, rfl, Or.inr ⟨gbw, rfl, rfl⟩, rfl, hg, rfl,
          rfl, h2, fun ha _ => absurd ha h1⟩
      · have hcd : clearedDoc d
            = { d with
                new_sel := []
                new_taz_table := emptyTable cols19
                new_taz_sums := cols19.map (fun c => (c, 0))
                blocks_source := gdf_to_cds_polygons cols19 gbw
                blocks_sel := []
                blocks_table := emptyTable cols19
                blocks_sums := cols19.map (fun c => (c, 0)) } := by
          unfold clearedDoc
          rw [if_neg h1, hg, if_neg h2]
        rw [hcd]
        exact ⟨rfl, rfl, rfl, rfl, rfl, rfl, rfl, Or.inr ⟨gbw, rfl, rfl⟩, rfl, hg, rfl,
          rfl, rfl, fun ha _ => absurd ha h1⟩

/-! Concrete fixtures used by the witnesses and counterexamples. -/

/-- A small concrete ring. -/
def demoRing : Ring := [(0, 0), (4, 0), (4, 3), (0, 0)]

/-- A concrete old TAZ record with identifier 5. -/
def demoOld : GeometryRecord := ⟨.iint 5, .poly demoRing, []⟩

/-- A concrete new TAZ record with integer identifier 7. -/
def demoNew : GeometryRecord := ⟨.iint 7, .poly demoRing, [("HH19", .num 10)]⟩

/-- A concrete block record with string identifier B1. -/
def demoBlock : GeometryRecord := ⟨.istr "B1", .poly demoRing, [("HH19", .num 3)]⟩

/-- A concrete database holding one record per collection. -/
def demoDB : GeoDB := ⟨[demoOld], [demoNew], [demoBlock]⟩

/-- A concrete instantiation of the external geometry collaborators. -/
def demoCtx : GeoCtx := ⟨fun _ _ => true, fun _ => .gnone, fun g _ => g⟩

/-- A concrete viewport. -/
def demoBounds : Bounds := ⟨0, 0, 0, 0⟩

/-- A concrete document state with non-empty layers, as left by some
earlier successful search. -/
def demoViz : VizState :=
  { search_label := .statusNone
    old_taz_source := [dfltSub]
    old_taz_blocks_source := [dfltSub]
    new_taz_source := [dfltSub]
    new_taz_blocks_source := [dfltSub]
    blocks_source := [dfltSub]
    combined_old_source := [dfltSub]
    combined_new_source := [dfltSub]
    combined_blocks_source := [dfltSub]
    new_taz_table := emptyTable cols8
    blocks_table := emptyTable cols8
    new_sel := []
    blocks_sel := []
    global_new_gdf := none
    global_blocks_gdf := none
    vOld := demoBounds
    vNew := demoBounds
    vCombined := demoBounds
    vBlocks := demoBounds }

/-- C9 — on a successful search all four panels receive the bounding
box of the found coarse zone rows expanded by 5 percent of its width
and height on each side (absolute pad when degenerate), which is the
content of `specViewport`. -/
theorem search_viewport_five_percent (ctx : GeoCtx) (db : GeoDB) (id : Int)
    (o n b : List GeometryRecord) (s : VizState)
    (hfound : filter_old_taz ctx db id = some (o, n, b)) :
    (run_search ctx db (.intVal id) s).vOld = specViewport (totalBounds o)
    ∧ (run_search ctx db (.intVal id) s).vNew = specViewport (totalBounds o)
    ∧ (run_search ctx db (.intVal id) s).vCombined = specViewport (totalBounds o)
    ∧ (run_search ctx db (.intVal id) s).vBlocks = specViewport (totalBounds o) := by
  refine ⟨?_, ?_, ?_, ?_⟩ <;>
    simp [run_search, hfound, expandBounds_eq_specViewport]

theorem search_viewport_five_percent_witness :
    filter_old_taz demoCtx demoDB 5 = some ([demoOld], [demoNew], [demoBlock])
    ∧ ((run_search demoCtx demoDB (.intVal 5) demoViz).vOld
          = specViewport (totalBounds [demoOld])
      ∧ (run_search demoCtx demoDB (.intVal 5) demoViz).vNew
          = specViewport (totalBounds [demoOld])
      ∧ (run_search demoCtx demoDB (.intVal 5) demoViz).vCombined
          = specViewport (totalBounds [demoOld])
      ∧ (run_search demoCtx demoDB (.intVal 5) demoViz).vBlocks
          = specViewport (totalBounds [demoOld])) :=
  ⟨by decide,
   search_viewport_five_percent demoCtx demoDB 5 [demoOld] [demoNew] [demoBlock]
     demoViz (by decide)⟩

/-- C2 (counterexample) — searching the absent identifier 999999
reports not found and raises nothing, but the three layers keep their
previous non-empty contents: they are not cleared to empty. -/
theorem notfound_layers_not_cleared :
    (run_search demoCtx demoDB (.intVal 999999) demoViz).search_label
        = SearchStatus.notFound
    ∧ (run_search demoCtx demoDB (.intVal 999999) demoViz).old_taz_source
        = demoViz.old_taz_source
    ∧ (run_search demoCtx demoDB (.intVal 999999) demoViz).new_taz_source
        = demoViz.new_taz_source
    ∧ (run_search demoCtx demoDB (.intVal 999999) demoViz).blocks_source
        = demoViz.blocks_source
    ∧ demoViz.old_taz_source ≠ []
    ∧ demoViz.new_taz_source ≠ []
    ∧ demoViz.blocks_source ≠ [] := by
  exact ⟨rfl, rfl, rfl, rfl, by decide, by decide, by decide⟩

/-- C2 (amended) — for an identifier that parses but matches no
coarse-zone record, both search operations report a not-found status
and raise no exception, but neither clears the three layers to empty:
the viztaz_app `run_search` returns with everything except the status
label exactly as before, while the my_app `on_search_click` first
clears the two selections (the registered selection callbacks emptying
the tables, zeroing the sums and, when a fine-zone selection was
active, resetting the blocks CDS from the loaded post-search pool) and
then returns with every layer source keeping its contents; when no
selection was active only the status changes. -/
theorem notfound_reports_and_preserves (ctx : GeoCtx) (db : GeoDB)
    (id : Int) (s : VizState) (d : MyAppDoc)
    (hmiss : db.old_taz.filter (fun r => r.rid.eqInt id) = []) :
    run_search ctx db (.intVal id) s = { s with search_label := .notFound }
    ∧ ∃ d2, on_search_click ctx db (.intVal id) d = some d2
        ∧ d2.search_status = .notFound
        ∧ d2.old_taz_source = d.old_taz_source
        ∧ d2.old_taz_blocks_source = d.old_taz_blocks_source
        ∧ d2.new_taz_source = d.new_taz_source
        ∧ d2.new_taz_blocks_source = d.new_taz_blocks_source
        ∧ d2.combined_old_source = d.combined_old_source
        ∧ d2.combined_new_source = d.combined_new_source
        ∧ d2.combined_blocks_source = d.combined_blocks_source
        ∧ (d2.blocks_source = d.blocks_source
            ∨ ∃ gbw, d.global_blocks_web = some gbw
                ∧ d2.blocks_source = gdf_to_cds_polygons cols19 gbw)
        ∧ d2.global_new_web = d.global_new_web
        ∧ d2.global_blocks_web = d.global_blocks_web
        ∧ d2.vOld = d.vOld
        ∧ d2.new_sel = []
        ∧ d2.blocks_sel = []
        ∧ (d.new_sel = [] → d.blocks_sel = []
            → d2 = { d with search_status := SearchStatus.notFound }) := by
  constructor
  · simp [run_search, filter_old_taz, hmiss]
  · obtain ⟨f1, f2, f3, f4, f5, f6, f7, f8, f9, f10, f11, f12, f13, f14⟩ :=
      clearedDoc_fields d
    refine ⟨{ clearedDoc d with search_status := .notFound },
      on_search_click_notfound ctx db id d hmiss, rfl,
      f1, f2, f3, f4, f5, f6, f7, ?_, f9, f10, f11, f12, f13, ?_⟩
    · rcases f8 with h | ⟨gbw, hgbw, hbs⟩
      · exact Or.inl h
      · exact Or.inr ⟨gbw, hgbw, hbs⟩
    · intro ha hb
      rw [f14 ha hb]

/-- A concrete my_app document state with non-empty layers and an
active selection on both selectable panels, as left by some earlier
successful search and user interaction. -/
def demoDoc : MyAppDoc :=
  { search_status := .statusNone
    old_taz_source := [dfltSub]
    old_taz_blocks_source := [dfltSub]
    new_taz_source := [dfltSub]
    new_taz_blocks_source := [dfltSub]
    combined_old_source := [dfltSub]
    combined_new_source := [dfltSub]
    combined_blocks_source := [dfltSub]
    blocks_source := [dfltSub]
    new_taz_table := emptyTable cols19
    new_taz_sums := cols19.map (fun c => (c, 0))
    blocks_table := emptyTable cols19
    blocks_sums := cols19.map (fun c => (c, 0))
    new_sel := [0]
    blocks_sel := [0]
    global_new_web := some [demoNew]
    global_blocks_web := some [demoBlock]
    vOld := demoBounds }

theorem notfound_reports_and_preserves_witness :
    run_search demoCtx demoDB (.intVal 999999) demoViz
      = { demoViz with search_label := SearchStatus.notFound }
    ∧ ∃ d2, on_search_click demoCtx demoDB (.intVal 999999) demoDoc = some d2
        ∧ d2.search_status = .notFound
        ∧ d2.old_taz_source = demoDoc.old_taz_source
        ∧ d2.old_taz_blocks_source = demoDoc.old_taz_blocks_source
        ∧ d2.new_taz_source = demoDoc.new_taz_source
        ∧ d2.new_taz_blocks_source = demoDoc.new_taz_blocks_source
        ∧ d2.combined_old_source = demoDoc.combined_old_source
        ∧ d2.combined_new_source = demoDoc.combined_new_source
        ∧ d2.combined_blocks_source = demoDoc.combined_blocks_source
        ∧ (d2.blocks_source = demoDoc.blocks_source
            ∨ ∃ gbw, demoDoc.global_blocks_web = some gbw
                ∧ d2.blocks_source = gdf_to_cds_polygons cols19 gbw)
        ∧ d2.global_new_web = demoDoc.global_new_web
        ∧ d2.global_blocks_web = demoDoc.global_blocks_web
        ∧ d2.vOld = demoDoc.vOld
        ∧ d2.new_sel = []
        ∧ d2.blocks_sel = []
        ∧ (demoDoc.new_sel = [] → demoDoc.blocks_sel = []
            → d2 = { demoDoc with search_status := SearchStatus.notFound }) :=
  notfound_reports_and_preserves demoCtx demoDB 999999 demoViz demoDoc (by decide)

/-- C3 (counterexample) — a selection event carrying the stale index 5
against a one-row layer makes both the blocks-table update and the
fine-zone selection handler raise an IndexError (modelled by `none`):
the invalid index is neither clamped nor ignored. -/
theorem stale_index_raises :
    update_blocks_table [dfltSub] [5] = none
    ∧ new_taz_selection_change demoCtx
        ⟨[dfltSub], [dfltSub], emptyTable cols19, [], [5],
         some [demoNew], some [demoBlock]⟩ = none :=
  ⟨rfl, rfl⟩

/-- C3 (amended) — the selection handlers index the current
sub-polygon lists directly: a selection event whose indices all lie
within the current list length is handled without raising, but an
out-of-range (stale) index raises an IndexError rather than being
clamped or ignored. -/
theorem selection_in_range_no_raise (ctx : GeoCtx) (s : MyAppState)
    (src : List SubPoly) (inds : List Nat)
    (hs : ∀ i ∈ s.new_sel, i < s.new_taz_source.length)
    (hb : ∀ i ∈ inds, i < src.length) :
    (new_taz_selection_change ctx s).isSome = true
    ∧ (update_blocks_table src inds).isSome = true := by
  refine ⟨change_isSome ctx s hs, ?_⟩
  unfold update_blocks_table
  by_cases he : inds.isEmpty
  · simp [he]
  · rw [if_neg he]
    obtain ⟨tb, htb⟩ :=
      Option.isSome_iff_exists.mp (extractRows_isSome cols8 src inds hb)
    rw [htb]
    rfl

/-- A concrete my_app state right after a search: the fine-zone CDS is
the decomposition of one record and its first row is selected. -/
def sW1 : MyAppState :=
  { new_taz_source := split_multipolygons_to_cds cols19 [demoNew]
    blocks_source := gdf_to_cds_polygons cols19 [demoBlock]
    new_taz_table := emptyTable cols19
    new_taz_sums := cols19.map (fun c => (c, 0))
    new_sel := [0]
    global_new_web := some [demoNew]
    global_blocks_web := some [demoBlock] }

theorem selection_in_range_no_raise_witness :
    (new_taz_selection_change demoCtx sW1).isSome = true
    ∧ (update_blocks_table [dfltSub] [0]).isSome = true :=
  selection_in_range_no_raise demoCtx sW1 [dfltSub] [0] (by decide) (by decide)

theorem do_intersection_eq (ctx : GeoCtx) (t : MyAppState)
    (colsN : List String) (gnw gbw : List GeometryRecord)
    (hne : t.new_sel ≠ [])
    (hrange : ∀ i ∈ t.new_sel, i < t.new_taz_source.length)
    (hsrc : t.new_taz_source = split_multipolygons_to_cds colsN gnw)
    (hgn : t.global_new_web = some gnw)
    (hgb : t.global_blocks_web = some gbw) :
    do_new_taz_selection_intersection ctx t
      = some { t with blocks_source :=
                        gdf_to_cds_polygons cols19
                          (gbw.filter (fun r => ctx.inter r.geom
                            (ctx.unionG ((chosenRecords gnw
                              (selectedParentIds t.new_taz_source t.new_sel)).map
                                (fun r => r.geom))))) } := by
  have hselF : ¬t.new_sel.isEmpty = true := by simp [List.isEmpty_iff, hne]
  unfold do_new_taz_selection_intersection
  rw [hgn, hgb]
  dsimp only
  rw [if_neg hselF,
    collectAll_map_eq t.new_taz_source (fun sp => sp.pid) t.new_sel hrange]
  dsimp only
  have hdne : ¬((t.new_sel.map
      (fun i => (t.new_taz_source.getD i dfltSub).pid)).dedup).isEmpty = true := by
    simp [List.isEmpty_iff, List.dedup_eq_nil, hne]
  rw [if_neg hdne]
  obtain ⟨i0, hi0⟩ : ∃ i0, i0 ∈ t.new_sel := ⟨t.new_sel.head hne, List.head_mem hne⟩
  have helem : t.new_taz_source.getD i0 dfltSub ∈ t.new_taz_source :=
    getD_mem (hrange i0 hi0) _
  nth_rewrite 1 [hsrc] at helem
  obtain ⟨r, hr, hm⟩ := (mem_split_iff colsN gnw _).mp helem
  have hpid := (mem_splitRecord hm).2.1
  have hmemsel : (t.new_taz_source.getD i0 dfltSub).pid
      ∈ (t.new_sel.map (fun i => (t.new_taz_source.getD i dfltSub).pid)).dedup :=
    List.mem_dedup.mpr (List.mem_map.mpr ⟨i0, hi0, rfl⟩)
  have hrch : r ∈ chosenRecords gnw
      ((t.new_sel.map (fun i => (t.new_taz_source.getD i dfltSub).pid)).dedup) := by
    refine List.mem_filter.mpr ⟨hr, ?_⟩
    simp only [decide_eq_true_eq]
    rw [← hpid]
    exact hmemsel
  have hchne : ¬(chosenRecords gnw
      ((t.new_sel.map (fun i => (t.new_taz_source.getD i dfltSub).pid)).dedup)).isEmpty = true := by
    simp only [List.isEmpty_iff]
    exact List.ne_nil_of_mem hrch
  rw [if_neg hchne]
  rfl

/-- C1 — a non-empty, in-range selection on the fine-zone layer makes
the cascade resolve the indexed rows to their distinct parent id
strings, choose the matching fine-zone pool records, union their
geometries, and rebuild the blocks layer as exactly the decomposition
of the members of the post-search blocks pool intersecting that union
(the pool, never the full unfiltered collection, is filtered); the
resulting blocks layer is a subset of the post-search blocks layer. -/
theorem cascade_filters_post_search_pool (ctx : GeoCtx) (s : MyAppState)
    (colsN : List String) (gnw gbw : List GeometryRecord)
    (hne : s.new_sel ≠ [])
    (hrange : ∀ i ∈ s.new_sel, i < s.new_taz_source.length)
    (hsrc : s.new_taz_source = split_multipolygons_to_cds colsN gnw)
    (hgn : s.global_new_web = some gnw)
    (hgb : s.global_blocks_web = some gbw) :
    ∃ s2, new_taz_selection_change ctx s = some s2
      ∧ s2.blocks_source = gdf_to_cds_polygons cols19
          (gbw.filter (fun r => ctx.inter r.geom
            (ctx.unionG ((chosenRecords gnw
              (selectedParentIds s.new_taz_source s.new_sel)).map (fun r => r.geom)))))
      ∧ s2.blocks_source ⊆ gdf_to_cds_polygons cols19 gbw := by
  have hselF : ¬s.new_sel.isEmpty = true := by simp [List.isEmpty_iff, hne]
  obtain ⟨tbl, htbl⟩ := Option.isSome_iff_exists.mp
    (extractRows_isSome cols19 s.new_taz_source s.new_sel hrange)
  have heq := do_intersection_eq ctx
    { s with new_taz_table := tbl, new_taz_sums := sum_columns tbl cols19 }
    colsN gnw gbw hne hrange hsrc hgn hgb
  have hchange : new_taz_selection_change ctx s
      = some { s with
          new_taz_table := tbl
          new_taz_sums := sum_columns tbl cols19
          blocks_source :=
            gdf_to_cds_polygons cols19
              (gbw.filter (fun r => ctx.inter r.geom
                (ctx.unionG ((chosenRecords gnw
                  (selectedParentIds s.new_taz_source s.new_sel)).map
                    (fun r => r.geom))))) } := by
    unfold new_taz_selection_change
    rw [if_neg hselF, htbl]
    exact heq
  exact ⟨_, hchange, rfl, split_filter_subset cols19 _ gbw⟩

theorem cascade_filters_post_search_pool_witness :
    ∃ s2, new_taz_selection_change demoCtx sW1 = some s2
      ∧ s2.blocks_source = gdf_to_cds_polygons cols19
          ([demoBlock].filter (fun r => demoCtx.inter r.geom
            (demoCtx.unionG ((chosenRecords [demoNew]
              (selectedParentIds sW1.new_taz_source sW1.new_sel)).map (fun r => r.geom)))))
      ∧ s2.blocks_source ⊆ gdf_to_cds_polygons cols19 [demoBlock] :=
  cascade_filters_post_search_pool demoCtx sW1 cols19 [demoNew] [demoBlock]
    (by decide) (by decide) rfl rfl rfl

/-- C6 — after a non-empty fine-zone selection was handled, handling
the cleared (empty) selection rebuilds the blocks layer as the full
decomposition of the post-search blocks pool (not an empty layer),
empties the fine-zone table and zeroes its sums. -/
theorem clear_selection_restores_pool (ctx : GeoCtx) (s : MyAppState)
    (gbw : List GeometryRecord) (s1 : MyAppState)
    (hgb : s.global_blocks_web = some gbw)
    (hne : s.new_sel ≠ [])
    (h1 : new_taz_selection_change ctx s = some s1) :
    new_taz_selection_change ctx { s1 with new_sel := [] }
      = some { s1 with
          new_sel := []
          new_taz_table := emptyTable cols19
          new_taz_sums := cols19.map (fun c => (c, 0))
          blocks_source := gdf_to_cds_polygons cols19 gbw } := by
  obtain ⟨bs, tb, sm, hx⟩ := change_shape ctx s s1 h1
  have hgb1 : ({ s1 with new_sel := ([] : List Nat) }).global_blocks_web = some gbw := by
    rw [hx]
    exact hgb
  exact change_on_empty ctx { s1 with new_sel := [] } gbw hgb1 rfl

/-- A concrete my_app state with one selected (in-range) row whose
handler run leaves the blocks layer unchanged. -/
def sW6 : MyAppState :=
  { new_taz_source := [dfltSub]
    blocks_source := [dfltSub]
    new_taz_table := emptyTable cols19
    new_taz_sums := cols19.map (fun c => (c, 0))
    new_sel := [0]
    global_new_web := some [demoNew]
    global_blocks_web := some [demoBlock] }

/-- The state produced by handling the selection of `sW6`. -/
def s1W6 : MyAppState :=
  { sW6 with
    new_taz_table := ⟨[""], cols19.map (fun c => (c, [AttrVal.null]))⟩
    new_taz_sums :=
      sum_columns ⟨[""], cols19.map (fun c => (c, [AttrVal.null]))⟩ cols19 }

theorem clear_selection_restores_pool_witness :
    sW6.global_blocks_web = some [demoBlock]
    ∧ sW6.new_sel ≠ []
    ∧ new_taz_selection_change demoCtx sW6 = some s1W6
    ∧ new_taz_selection_change demoCtx { s1W6 with new_sel := [] }
        = some { s1W6 with
            new_sel := []
            new_taz_table := emptyTable cols19
            new_taz_sums := cols19.map (fun c => (c, 0))
            blocks_source := gdf_to_cds_polygons cols19 [demoBlock] } :=
  ⟨rfl, by decide, by decide,
   clear_selection_restores_pool demoCtx sW6 [demoBlock] s1W6 rfl (by decide) (by decide)⟩

end TAZReview
